import Mathlib

/-! DistroLauncher: command dispatch, installation and exit codes

A shallow embedding of `DistroLauncher/DistroLauncher.cpp` (`InstallDistribution`,
`SetDefaultUser`, `wmain`).

The program is a sequence of calls into external collaborators (the WSL API loader,
`DistributionInfo`, `Helpers`).  These are modelled by a `Platform`: every call whose
result the program reads is answered by a function of the history of calls made so far.
The history (`List Event`) is the only state besides the local variables `hr` and
`exitCode`, which are passed explicitly.

The `do … while` loop of `InstallDistribution` has no bound, so the functions that run
it take a fuel argument and return `none` when the fuel is exhausted.
-/

namespace DistroLauncher

/-! ## Windows status codes (winerror.h) -/

/-- An `HRESULT` is a signed 32-bit status. -/
abbrev HRESULT := Int

/-- A `DWORD` / `ULONG` is an unsigned 32-bit value. -/
abbrev DWORD := Nat

/-- Windows `S_OK`. -/
def S_OK : HRESULT := 0

/-- Windows `E_INVALIDARG`, 0x80070057 read as a signed 32-bit value. -/
def E_INVALIDARG : HRESULT := 0x80070057 - 0x100000000

/-- Windows `ERROR_ALREADY_EXISTS`. -/
def ERROR_ALREADY_EXISTS : Nat := 183

/-- Windows `ERROR_LINUX_SUBSYSTEM_NOT_PRESENT`. -/
def ERROR_LINUX_SUBSYSTEM_NOT_PRESENT : Nat := 414

/-- Windows `FACILITY_WIN32`. -/
def FACILITY_WIN32 : Nat := 7

/-- Windows macro `FAILED(hr)`: `((HRESULT)(hr)) < 0`. -/
def FAILED (hr : HRESULT) : Bool := decide (hr < 0)

/-- Windows macro `SUCCEEDED(hr)`: `((HRESULT)(hr)) >= 0`. -/
def SUCCEEDED (hr : HRESULT) : Bool := decide (0 ≤ hr)

/-- Reinterpretation of a 32-bit pattern as a signed `int`. -/
def toInt32 (x : Nat) : Int :=
  if x % 2 ^ 32 < 2 ^ 31 then ((x % 2 ^ 32 : Nat) : Int) else ((x % 2 ^ 32 : Nat) : Int) - 2 ^ 32

/-- Windows `HRESULT_FROM_WIN32(x)`:
`(HRESULT)(x) <= 0 ? (HRESULT)(x) : (HRESULT)(((x) & 0x0000FFFF) | (FACILITY_WIN32 << 16) | 0x80000000)`. -/
def HRESULT_FROM_WIN32 (x : Nat) : HRESULT :=
  if toInt32 x ≤ 0 then toInt32 x
  else toInt32 ((x &&& 0x0000FFFF) ||| (FACILITY_WIN32 <<< 16) ||| 0x80000000)

/-- The exit code the operating system records for a process whose `wmain` returned the
`int` value `r`: the same 32 bits read as unsigned. -/
def processExitCode (r : Int) : Nat := (r % 2 ^ 32).toNat

/-! ## Collaborators -/

/-- Message identifiers passed to `Helpers::PrintMessage` / `Helpers::GetUserInput`. -/
inductive Msg
  | MSG_STATUS_INSTALLING
  | MSG_CREATE_USER_PROMPT
  | MSG_ENTER_USERNAME
  | MSG_MISSING_OPTIONAL_COMPONENT
  | MSG_INSTALL_ALREADY_EXISTS
  | MSG_INSTALL_SUCCESS
  | MSG_USAGE
  deriving DecidableEq, Repr

/-- One call made by the program to a collaborator, with its arguments. -/
inductive Event
  | setConsoleTitle
  | isOptionalComponentInstalled
  | isDistributionRegistered
  | registerDistribution
  | launchInteractive (command : String) (useCurrentWorkingDirectory : Bool)
  | configureDistribution (defaultUID : Nat) (flags : Nat)
  | createUser (userName : String)
  | queryUid (userName : String)
  | printMessage (m : Msg)
  | printErrorMessage (hr : HRESULT)
  | promptForInput
  | getUserInput (m : Msg) (maxCharacters : Nat)
  deriving DecidableEq, Repr

/-- The collaborators of the launcher.  Each answer may depend on every call made before
it.  `UID_INVALID` and `WSL_DISTRIBUTION_FLAGS_DEFAULT` are constants declared outside
`DistroLauncher.cpp`; they are taken as parameters.  `launchInteractive` answers with the
returned status and, when the call stores one through its `exitCode` pointer, the stored
exit code. -/
structure Platform where
  UID_INVALID : Nat
  WSL_DISTRIBUTION_FLAGS_DEFAULT : Nat
  isOptionalComponentInstalled : List Event → Bool
  isDistributionRegistered : List Event → Bool
  registerDistribution : List Event → HRESULT
  launchInteractive : List Event → String → Bool → HRESULT × Option DWORD
  configureDistribution : List Event → Nat → Nat → HRESULT
  createUser : List Event → String → Bool
  queryUid : List Event → String → Nat
  getUserInput : List Event → Msg → Nat → String

/-! ## `SetDefaultUser` (lines 48-63) -/

/-- `SetDefaultUser(userName)`: the returned status and the extended history. -/
def SetDefaultUser (p : Platform) (log : List Event) (userName : String) :
    HRESULT × List Event :=
  let uid := p.queryUid log userName
  let log := log ++ [Event.queryUid userName]
  if uid = p.UID_INVALID then
    (E_INVALIDARG, log)
  else
    let hr := p.configureDistribution log uid p.WSL_DISTRIBUTION_FLAGS_DEFAULT
    let log := log ++ [Event.configureDistribution uid p.WSL_DISTRIBUTION_FLAGS_DEFAULT]
    if FAILED hr then
      (hr, log)
    else
      (hr, log)

/-! ## `InstallDistribution` (lines 15-46) -/

/-- The loop `do { userName = GetUserInput(MSG_ENTER_USERNAME, 32); }
while (!CreateUser(userName));` of lines 34-37.  Each unit of fuel pays for one
iteration. -/
def createUserLoop (p : Platform) : Nat → List Event → Option (String × List Event)
  | 0, _ => none
  | fuel + 1, log =>
    let userName := p.getUserInput log Msg.MSG_ENTER_USERNAME 32
    let log := log ++ [Event.getUserInput Msg.MSG_ENTER_USERNAME 32]
    let created := p.createUser log userName
    let log := log ++ [Event.createUser userName]
    if !created then
      createUserLoop p fuel log
    else
      some (userName, log)

/-- `InstallDistribution()`: the returned status and the extended history, or `none` when
the user-creation loop does not finish within `fuel` iterations. -/
def InstallDistribution (p : Platform) (fuel : Nat) (log : List Event) :
    Option (HRESULT × List Event) :=
  let log := log ++ [Event.printMessage Msg.MSG_STATUS_INSTALLING]
  let hr := p.registerDistribution log
  let log := log ++ [Event.registerDistribution]
  if FAILED hr then
    some (hr, log)
  else
    let hr := (p.launchInteractive log "/bin/rm /etc/resolv.conf" true).1
    let log := log ++ [Event.launchInteractive "/bin/rm /etc/resolv.conf" true]
    if FAILED hr then
      some (hr, log)
    else
      let log := log ++ [Event.printMessage Msg.MSG_CREATE_USER_PROMPT]
      match createUserLoop p fuel log with
      | none => none
      | some (userName, log) =>
        let r := SetDefaultUser p log userName
        if FAILED r.1 then
          some (r.1, r.2)
        else
          some (r.1, r.2)

/-! ## `wmain` (lines 65-151) -/

/-- The `return` statement of `wmain` that ended a run, with the values of `hr` and
`exitCode` where they are in scope. -/
inductive ReturnSite
  | missingComponent
  | usage
  | final (hr : HRESULT) (exitCode : DWORD)
  deriving DecidableEq, Repr

/-- Result of a finished run of `wmain`: the returned `int`, the calls made, and the
`return` statement reached. -/
structure Outcome where
  code : Int
  log : List Event
  site : ReturnSite
  deriving DecidableEq, Repr

/-- Lines 87-99: install the distribution if it is not registered.  Returns `hr`. -/
def wmainInstall (p : Platform) (fuel : Nat) (log : List Event) :
    Option (HRESULT × List Event) :=
  let hr := S_OK
  let registered := p.isDistributionRegistered log
  let log := log ++ [Event.isDistributionRegistered]
  if !registered then
    match InstallDistribution p fuel log with
    | none => none
    | some (hr, log) =>
      if FAILED hr then
        if hr = HRESULT_FROM_WIN32 ERROR_ALREADY_EXISTS then
          some (hr, log ++ [Event.printMessage Msg.MSG_INSTALL_ALREADY_EXISTS])
        else
          some (hr, log)
      else
        some (hr, log ++ [Event.printMessage Msg.MSG_INSTALL_SUCCESS])
  else
    some (hr, log)

/-- The statement after lines 101-134: either `wmain` returned at line 132, or control
continues at line 136 with the given `hr` and `exitCode`. -/
inductive Dispatched
  | returned (exitCode : DWORD) (log : List Event)
  | proceed (hr : HRESULT) (exitCode : DWORD) (log : List Event)
  deriving DecidableEq, Repr

/-- Lines 110-114: `command` built from `arguments[1..]`. -/
def buildCommand (arguments : List String) : String :=
  (arguments.drop 1).foldl (fun command argument => command ++ " " ++ argument) ""

/-- Lines 101-134: parse the command line arguments. -/
def wmainDispatch (p : Platform) (arguments : List String) (hr : HRESULT) (exitCode : DWORD)
    (log : List Event) : Dispatched :=
  if SUCCEEDED hr then
    if arguments.isEmpty then
      let r := p.launchInteractive log "" false
      Dispatched.proceed r.1 (r.2.getD exitCode) (log ++ [Event.launchInteractive "" false])
    else if arguments.getD 0 "" = "run" ∨ arguments.getD 0 "" = "/c"
        ∨ arguments.getD 0 "" = "-c" then
      let command := buildCommand arguments
      let r := p.launchInteractive log command true
      Dispatched.proceed r.1 (r.2.getD exitCode) (log ++ [Event.launchInteractive command true])
    else if arguments.getD 0 "" = "config" then
      let hr := E_INVALIDARG
      let r :=
        if arguments.length = 3 then
          if arguments.getD 1 "" = "--default-user" then
            SetDefaultUser p log (arguments.getD 2 "")
          else (hr, log)
        else (hr, log)
      if SUCCEEDED r.1 then
        Dispatched.proceed r.1 0 r.2
      else
        Dispatched.proceed r.1 exitCode r.2
    else
      Dispatched.returned exitCode (log ++ [Event.printMessage Msg.MSG_USAGE])
  else
    Dispatched.proceed hr exitCode log

/-- Lines 136-150: print an error message if one was encountered and return. -/
def wmainFinal (arguments : List String) (hr : HRESULT) (exitCode : DWORD)
    (log : List Event) : Outcome :=
  let log :=
    if FAILED hr then
      let log :=
        if hr = HRESULT_FROM_WIN32 ERROR_LINUX_SUBSYSTEM_NOT_PRESENT then
          log ++ [Event.printMessage Msg.MSG_MISSING_OPTIONAL_COMPONENT]
        else
          log ++ [Event.printErrorMessage hr]
      if arguments.isEmpty then log ++ [Event.promptForInput] else log
    else log
  { code := toInt32 (if SUCCEEDED hr then exitCode else 1), log := log,
    site := ReturnSite.final hr exitCode }

/-- Lines 101-150: dispatch, then the final error handling unless line 132 returned. -/
def wmainCommand (p : Platform) (arguments : List String) (hr : HRESULT) (exitCode : DWORD)
    (log : List Event) : Outcome :=
  match wmainDispatch p arguments hr exitCode log with
  | Dispatched.returned exitCode log =>
    { code := toInt32 exitCode, log := log, site := ReturnSite.usage }
  | Dispatched.proceed hr exitCode log => wmainFinal arguments hr exitCode log

/-- `wmain(argc, argv)`, with `argv` the list of its `argc` entries. -/
def wmain (p : Platform) (fuel : Nat) (argv : List String) : Option Outcome :=
  let log := [Event.setConsoleTitle]
  let arguments := argv.drop 1
  let exitCode : DWORD := 1
  let installed := p.isOptionalComponentInstalled log
  let log := log ++ [Event.isOptionalComponentInstalled]
  if !installed then
    let log := log ++ [Event.printMessage Msg.MSG_MISSING_OPTIONAL_COMPONENT]
    let log := if arguments.isEmpty then log ++ [Event.promptForInput] else log
    some { code := toInt32 exitCode, log := log, site := ReturnSite.missingComponent }
  else
    match wmainInstall p fuel log with
    | none => none
    | some (hr, log) => some (wmainCommand p arguments hr exitCode log)

/-! ## Scripted platforms used to evaluate the program -/

/-- A platform on which the feature is present, the distribution is registered, every
call succeeds, sessions report exit code 7 and every user has identifier 1000. -/
def okPlatform : Platform where
  UID_INVALID := 0xFFFFFFFF
  WSL_DISTRIBUTION_FLAGS_DEFAULT := 7
  isOptionalComponentInstalled := fun _ => true
  isDistributionRegistered := fun _ => true
  registerDistribution := fun _ => S_OK
  launchInteractive := fun _ _ _ => (S_OK, some 7)
  configureDistribution := fun _ _ _ => S_OK
  createUser := fun _ _ => true
  queryUid := fun _ _ => 1000
  getUserInput := fun _ _ _ => "alice"

/-- A platform on which identifier lookup succeeds but the configure call fails with
`E_FAIL`. -/
def configureFailsPlatform : Platform :=
  { okPlatform with configureDistribution := fun _ _ _ => 0x80004005 - 0x100000000 }

/-- A platform on which the distribution is not registered and registration fails with
the already-exists status. -/
def alreadyExistsPlatform : Platform :=
  { okPlatform with
    isDistributionRegistered := fun _ => false
    registerDistribution := fun _ => HRESULT_FROM_WIN32 ERROR_ALREADY_EXISTS }

/-- A platform on which the feature is absent. -/
def absentPlatform : Platform :=
  { okPlatform with isOptionalComponentInstalled := fun _ => false }

/-- A platform on which the distribution is not registered and account creation fails
until the third prompt (the history then holds ten calls). -/
def thirdTryPlatform : Platform :=
  { okPlatform with
    isDistributionRegistered := fun _ => false
    getUserInput := fun log _ _ => if log.length < 10 then "root" else "alice"
    createUser := fun _ userName => decide (userName = "alice") }

/-- A platform on which no user name resolves to an identifier. -/
def unknownUserPlatform : Platform :=
  { okPlatform with queryUid := fun _ _ => 0xFFFFFFFF }

/-- A platform on which every launch fails with `E_FAIL` although an exit code 7 is
stored. -/
def launchFailsPlatform : Platform :=
  { okPlatform with launchInteractive := fun _ _ _ => (0x80004005 - 0x100000000, some 7) }

/-- A platform on which the distribution is not registered, registration succeeds and the
removal of `/etc/resolv.conf` fails with `E_FAIL`. -/
def removalFailsPlatform : Platform :=
  { launchFailsPlatform with isDistributionRegistered := fun _ => false }

/-- A platform on which the distribution is not registered and no account can be
created. -/
def neverCreatesPlatform : Platform :=
  { okPlatform with
    isDistributionRegistered := fun _ => false
    createUser := fun _ _ => false }

/-! ## Specification-side vocabulary -/

/-- The command string of the specification: every token preceded by one space. -/
def joinLeadingSpace : List String → String
  | [] => ""
  | t :: ts => " " ++ t ++ joinLeadingSpace ts

/-- The interactive-launch calls of a history, in order. -/
def launchCalls (log : List Event) : List (String × Bool) :=
  log.filterMap fun e =>
    match e with
    | Event.launchInteractive command useCwd => some (command, useCwd)
    | _ => none

/-- Calls that only `InstallDistribution` makes: the installing message, the register
call, the removal of `/etc/resolv.conf`, the user-creation banner, a user-name prompt and
an account creation. -/
def isInstallCall : Event → Bool
  | Event.printMessage Msg.MSG_STATUS_INSTALLING => true
  | Event.registerDistribution => true
  | Event.launchInteractive command _ => decide (command = "/bin/rm /etc/resolv.conf")
  | Event.printMessage Msg.MSG_CREATE_USER_PROMPT => true
  | Event.getUserInput _ _ => true
  | Event.createUser _ => true
  | _ => false

/-- History of `InstallDistribution` started at `log` once registration has been called. -/
def registeredLog (log : List Event) : List Event :=
  log ++ [Event.printMessage Msg.MSG_STATUS_INSTALLING] ++ [Event.registerDistribution]

/-- History of `InstallDistribution` started at `log` when it enters the user-creation
loop. -/
def promptingLog (log : List Event) : List Event :=
  registeredLog log ++ [Event.launchInteractive "/bin/rm /etc/resolv.conf" true]
    ++ [Event.printMessage Msg.MSG_CREATE_USER_PROMPT]

/-- Status returned by the register call of `InstallDistribution` started at `log`. -/
def registerStatus (p : Platform) (log : List Event) : HRESULT :=
  p.registerDistribution (log ++ [Event.printMessage Msg.MSG_STATUS_INSTALLING])

/-- Status returned by the launch that removes `/etc/resolv.conf` in `InstallDistribution`
started at `log`. -/
def removalStatus (p : Platform) (log : List Event) : HRESULT :=
  (p.launchInteractive (registeredLog log) "/bin/rm /etc/resolv.conf" true).1

/-- History after `i` iterations of the user-creation loop entered at history `log`. -/
def afterAttempts (p : Platform) : Nat → List Event → List Event
  | 0, log => log
  | i + 1, log =>
    afterAttempts p i
      (log ++ [Event.getUserInput Msg.MSG_ENTER_USERNAME 32]
        ++ [Event.createUser (p.getUserInput log Msg.MSG_ENTER_USERNAME 32)])

/-- The user name entered at the prompt of iteration `i + 1` of the loop entered at `log`. -/
def enteredName (p : Platform) (i : Nat) (log : List Event) : String :=
  p.getUserInput (afterAttempts p i log) Msg.MSG_ENTER_USERNAME 32

/-- Whether the account creation of iteration `i + 1` of the loop entered at `log`
succeeds. -/
def creationSucceeds (p : Platform) (i : Nat) (log : List Event) : Bool :=
  p.createUser (afterAttempts p i log ++ [Event.getUserInput Msg.MSG_ENTER_USERNAME 32])
    (enteredName p i log)

/-- Number of user-name prompts in a history. -/
def promptCount (log : List Event) : Nat :=
  log.countP fun e =>
    match e with
    | Event.getUserInput _ _ => true
    | _ => false

/-- Number of account-creation calls in a history. -/
def createCount (log : List Event) : Nat :=
  log.countP fun e =>
    match e with
    | Event.createUser _ => true
    | _ => false

/-- The history at which `wmain` asks whether the distribution is registered. -/
def startLog : List Event := [Event.setConsoleTitle, Event.isOptionalComponentInstalled]

/-! ## Auxiliary lemmas -/

theorem foldl_command (ts : List String) (acc : String) :
    ts.foldl (fun command argument => command ++ " " ++ argument) acc
      = acc ++ joinLeadingSpace ts := by
  induction ts generalizing acc with
  | nil => simp [joinLeadingSpace]
  | cons t ts ih =>
    simp only [List.foldl_cons, joinLeadingSpace]
    rw [ih]
    simp [String.append_assoc]

theorem buildCommand_cons (first : String) (rest : List String) :
    buildCommand (first :: rest) = joinLeadingSpace rest := by
  simp [buildCommand, foldl_command]

theorem wmain_of_install (p : Platform) (fuel : Nat) (argv : List String) (hr0 : HRESULT)
    (log1 : List Event)
    (hfeat : p.isOptionalComponentInstalled [Event.setConsoleTitle] = true)
    (hinst : wmainInstall p fuel startLog = some (hr0, log1)) :
    wmain p fuel argv = some (wmainCommand p (argv.drop 1) hr0 1 log1) := by
  simp only [startLog] at hinst
  simp [wmain, hfeat, hinst]

theorem toInt32_one : toInt32 1 = 1 := by decide

theorem toInt32_zero : toInt32 0 = 0 := by decide

theorem failed_eq_not_succeeded (hr : Int) : FAILED hr = !SUCCEEDED hr := by
  simp only [FAILED, SUCCEEDED]
  by_cases h : hr < 0
  · have : ¬ (0 ≤ hr) := by omega
    simp [h, this]
  · have : 0 ≤ hr := by omega
    simp [h, this]

theorem succeeded_eq_not_failed (hr : Int) : SUCCEEDED hr = !FAILED hr := by
  simp [failed_eq_not_succeeded]

theorem joinLeadingSpace_ne_rm (rest : List String) :
    joinLeadingSpace rest ≠ "/bin/rm /etc/resolv.conf" := by
  cases rest with
  | nil => simp [joinLeadingSpace]
  | cons t ts =>
    intro h
    have := congrArg (fun s => s.data.head?) h
    simp [joinLeadingSpace, String.data_append] at this

theorem launchCalls_append (a b : List Event) :
    launchCalls (a ++ b) = launchCalls a ++ launchCalls b := by
  simp [launchCalls, List.filterMap_append]

theorem SetDefaultUser_log (p : Platform) (log : List Event) (userName : String) :
    ∃ ext, (SetDefaultUser p log userName).2 = log ++ ext ∧ launchCalls ext = [] := by
  by_cases h : p.queryUid log userName = p.UID_INVALID
  · exact ⟨[Event.queryUid userName], by simp [SetDefaultUser, h], rfl⟩
  · exact ⟨[Event.queryUid userName, Event.configureDistribution (p.queryUid log userName)
        p.WSL_DISTRIBUTION_FLAGS_DEFAULT], by simp [SetDefaultUser, h], rfl⟩

theorem createUserLoop_log (p : Platform) (fuel : Nat) (log : List Event) (userName : String)
    (log2 : List Event) (h : createUserLoop p fuel log = some (userName, log2)) :
    ∃ ext, log2 = log ++ ext ∧ launchCalls ext = [] := by
  induction fuel generalizing log with
  | zero => simp [createUserLoop] at h
  | succ n ih =>
    simp only [createUserLoop] at h
    split at h
    · obtain ⟨ext, hext, hl⟩ := ih _ h
      subst hext
      simp only [List.append_assoc]
      exact ⟨_, rfl, by simpa [launchCalls_append, launchCalls] using hl⟩
    · simp only [Option.some.injEq, Prod.mk.injEq] at h
      obtain ⟨-, rfl⟩ := h
      simp only [List.append_assoc]
      exact ⟨_, rfl, by simp [launchCalls]⟩

theorem InstallDistribution_log (p : Platform) (fuel : Nat) (log : List Event) (hr : HRESULT)
    (log2 : List Event) (h : InstallDistribution p fuel log = some (hr, log2)) :
    ∃ ext, log2 = log ++ ext ∧
      ∀ c ∈ launchCalls ext, c = ("/bin/rm /etc/resolv.conf", true) := by
  simp only [InstallDistribution] at h
  split at h
  · simp only [Option.some.injEq, Prod.mk.injEq] at h
    obtain ⟨-, rfl⟩ := h
    simp only [List.append_assoc]
    exact ⟨_, rfl, by simp [launchCalls]⟩
  · split at h
    · simp only [Option.some.injEq, Prod.mk.injEq] at h
      obtain ⟨-, rfl⟩ := h
      simp only [List.append_assoc]
      exact ⟨_, rfl, by simp [launchCalls]⟩
    · split at h
      · simp at h
      · rename_i userName log3 hloop
        obtain ⟨e1, he1, hl1⟩ := createUserLoop_log p fuel _ userName log3 hloop
        obtain ⟨e2, he2, hl2⟩ := SetDefaultUser_log p log3 userName
        have hlog2 : log2 = (SetDefaultUser p log3 userName).2 := by
          split at h <;> simp only [Option.some.injEq, Prod.mk.injEq] at h <;> exact h.2.symm
        rw [hlog2, he2, he1]
        simp only [List.append_assoc]
        exact ⟨_, rfl, by simp only [launchCalls_append, hl1, hl2]; simp [launchCalls]⟩

theorem wmainInstall_log (p : Platform) (fuel : Nat) (log : List Event) (hr : HRESULT)
    (log1 : List Event) (h : wmainInstall p fuel log = some (hr, log1)) :
    ∃ ext, log1 = log ++ ext ∧
      ∀ c ∈ launchCalls ext, c = ("/bin/rm /etc/resolv.conf", true) := by
  simp only [wmainInstall] at h
  split at h
  · split at h
    · simp at h
    · rename_i hr2 log2 hinst
      obtain ⟨e, he, hl⟩ := InstallDistribution_log p fuel _ hr2 log2 hinst
      have key : ∀ m : Msg, ∃ ext, log2 ++ [Event.printMessage m] = log ++ ext ∧
          ∀ c ∈ launchCalls ext, c = ("/bin/rm /etc/resolv.conf", true) := by
        intro m
        rw [he]
        simp only [List.append_assoc]
        exact ⟨_, rfl, by simpa [launchCalls_append, launchCalls] using hl⟩
      have key0 : ∃ ext, log2 = log ++ ext ∧
          ∀ c ∈ launchCalls ext, c = ("/bin/rm /etc/resolv.conf", true) := by
        rw [he]
        simp only [List.append_assoc]
        exact ⟨_, rfl, by simpa [launchCalls_append, launchCalls] using hl⟩
      split at h
      · split at h
        · simp only [Option.some.injEq, Prod.mk.injEq] at h
          rw [← h.2]
          exact key _
        · simp only [Option.some.injEq, Prod.mk.injEq] at h
          rw [← h.2]
          exact key0
      · simp only [Option.some.injEq, Prod.mk.injEq] at h
        rw [← h.2]
        exact key _
  · simp only [Option.some.injEq, Prod.mk.injEq] at h
    exact ⟨_, h.2.symm, by simp [launchCalls]⟩

theorem wmainFinal_log (arguments : List String) (hr : HRESULT) (exitCode : DWORD)
    (log : List Event) :
    ∃ ext, (wmainFinal arguments hr exitCode log).log = log ++ ext ∧ launchCalls ext = [] := by
  simp only [wmainFinal]
  split
  · split <;> split <;>
      first
      | exact ⟨_, rfl, by simp [launchCalls]⟩
      | (simp only [List.append_assoc]; exact ⟨_, rfl, by simp [launchCalls]⟩)
  · exact ⟨[], by simp, rfl⟩

theorem wmainCommand_run (p : Platform) (first : String) (rest : List String)
    (hr0 : HRESULT) (exitCode : DWORD) (log1 : List Event)
    (hfirst : first = "run" ∨ first = "/c" ∨ first = "-c") (hok : SUCCEEDED hr0 = true) :
    wmainCommand p (first :: rest) hr0 exitCode log1 =
      wmainFinal (first :: rest) (p.launchInteractive log1 (joinLeadingSpace rest) true).1
        ((p.launchInteractive log1 (joinLeadingSpace rest) true).2.getD exitCode)
        (log1 ++ [Event.launchInteractive (joinLeadingSpace rest) true]) := by
  rcases hfirst with h | h | h <;> subst h <;>
    simp [wmainCommand, wmainDispatch, hok, buildCommand_cons]

theorem wmainCommand_empty (p : Platform) (hr0 : HRESULT) (exitCode : DWORD)
    (log1 : List Event) (hok : SUCCEEDED hr0 = true) :
    wmainCommand p [] hr0 exitCode log1 =
      wmainFinal [] (p.launchInteractive log1 "" false).1
        ((p.launchInteractive log1 "" false).2.getD exitCode)
        (log1 ++ [Event.launchInteractive "" false]) := by
  simp [wmainCommand, wmainDispatch, hok]

theorem wmainCommand_skipped (p : Platform) (arguments : List String) (hr0 : HRESULT)
    (exitCode : DWORD) (log1 : List Event) (hfail : FAILED hr0 = true) :
    wmainCommand p arguments hr0 exitCode log1 = wmainFinal arguments hr0 exitCode log1 := by
  have : SUCCEEDED hr0 = false := by simp [succeeded_eq_not_failed, hfail]
  simp [wmainCommand, wmainDispatch, this]

theorem wmainFinal_mem (arguments : List String) (hr : HRESULT) (exitCode : DWORD)
    (log : List Event) (x : Event) (hx : x ∈ (wmainFinal arguments hr exitCode log).log) :
    x ∈ log ∨ isInstallCall x = false := by
  simp only [wmainFinal] at hx
  split_ifs at hx <;> (try simp only [List.mem_append, List.mem_singleton] at hx) <;>
    aesop

theorem SetDefaultUser_mem (p : Platform) (log : List Event) (userName : String) (x : Event)
    (hx : x ∈ (SetDefaultUser p log userName).2) : x ∈ log ∨ isInstallCall x = false := by
  simp only [SetDefaultUser] at hx
  split_ifs at hx <;> simp only [List.mem_append, List.mem_singleton] at hx <;>
    aesop

theorem wmainCommand_mem (p : Platform) (arguments : List String) (hr : HRESULT)
    (exitCode : DWORD) (log : List Event) (x : Event)
    (hx : x ∈ (wmainCommand p arguments hr exitCode log).log) :
    x ∈ log ∨ isInstallCall x = false := by
  by_cases hok : SUCCEEDED hr = true
  · rcases arguments with _ | ⟨first, rest⟩
    · rw [wmainCommand_empty p hr exitCode log hok] at hx
      rcases wmainFinal_mem _ _ _ _ x hx with h | h
      · simp only [List.mem_append, List.mem_singleton] at h
        rcases h with h | h
        · exact Or.inl h
        · subst h
          exact Or.inr (by decide)
      · exact Or.inr h
    · by_cases hfirst : first = "run" ∨ first = "/c" ∨ first = "-c"
      · rw [wmainCommand_run p first rest hr exitCode log hfirst hok] at hx
        rcases wmainFinal_mem _ _ _ _ x hx with h | h
        · simp only [List.mem_append, List.mem_singleton] at h
          rcases h with h | h
          · exact Or.inl h
          · subst h
            exact Or.inr (by simpa [isInstallCall] using joinLeadingSpace_ne_rm rest)
        · exact Or.inr h
      · simp only [not_or] at hfirst
        obtain ⟨h1, h2, h3⟩ := hfirst
        by_cases hcfg : first = "config"
        · subst hcfg
          have hform : ∃ hr2 e2 log2,
              wmainCommand p ("config" :: rest) hr exitCode log
                = wmainFinal ("config" :: rest) hr2 e2 log2 ∧
              (log2 = log ∨ ∃ u, log2 = (SetDefaultUser p log u).2) := by
            simp only [wmainCommand, wmainDispatch, hok]
            simp only [if_true, List.isEmpty_cons, Bool.false_eq_true, if_false,
              List.getD_cons_zero]
            split_ifs <;> first
              | exact ⟨_, _, _, rfl, Or.inl rfl⟩
              | exact ⟨_, _, _, rfl, Or.inr ⟨_, rfl⟩⟩
              | simp_all
          obtain ⟨hr2, e2, log2, hform, hlog2⟩ := hform
          rw [hform] at hx
          rcases wmainFinal_mem _ _ _ _ x hx with h | h
          · rcases hlog2 with rfl | ⟨u, rfl⟩
            · exact Or.inl h
            · exact SetDefaultUser_mem p log u x h
          · exact Or.inr h
        · have : wmainCommand p (first :: rest) hr exitCode log =
              { code := toInt32 exitCode, log := log ++ [Event.printMessage Msg.MSG_USAGE],
                site := ReturnSite.usage } := by
            simp [wmainCommand, wmainDispatch, hok, h1, h2, h3, hcfg]
          rw [this] at hx
          simp only [List.mem_append, List.mem_singleton] at hx
          rcases hx with h | h
          · exact Or.inl h
          · subst h
            exact Or.inr rfl
  · have hfail : FAILED hr = true := by
      simp only [Bool.not_eq_true] at hok
      simp [failed_eq_not_succeeded, hok]
    rw [wmainCommand_skipped p arguments hr exitCode log hfail] at hx
    exact wmainFinal_mem _ _ _ _ x hx

theorem processExitCode_toInt32 (v : Nat) (hv : v < 2 ^ 32) :
    processExitCode (toInt32 v) = v := by
  have h32 : (2 : Nat) ^ 32 = 4294967296 := by norm_num
  have h31 : (2 : Nat) ^ 31 = 2147483648 := by norm_num
  have hi32 : (2 : Int) ^ 32 = 4294967296 := by norm_num
  rw [h32] at hv
  simp only [processExitCode, toInt32, h32, h31, hi32]
  split <;> omega

theorem toInt32_small (v : Nat) (hv : v < 2 ^ 31) : toInt32 v = v := by
  have h32 : (2 : Nat) ^ 32 = 4294967296 := by norm_num
  have h31 : (2 : Nat) ^ 31 = 2147483648 := by norm_num
  rw [h31] at hv
  simp only [toInt32, h32, h31]
  have : v % 4294967296 = v := by omega
  simp [this, hv]

theorem wmainFinal_site (arguments : List String) (hr : HRESULT) (exitCode : DWORD)
    (log : List Event) :
    (wmainFinal arguments hr exitCode log).site = ReturnSite.final hr exitCode := rfl

theorem wmainFinal_code (arguments : List String) (hr : HRESULT) (exitCode : DWORD)
    (log : List Event) :
    (wmainFinal arguments hr exitCode log).code
      = toInt32 (if SUCCEEDED hr = true then exitCode else 1) := rfl

theorem wmainCommand_cases (p : Platform) (arguments : List String) (hr : HRESULT)
    (exitCode : DWORD) (log : List Event) :
    (wmainCommand p arguments hr exitCode log).site = ReturnSite.usage ∨
    ∃ hr2 e2 log2, wmainCommand p arguments hr exitCode log
      = wmainFinal arguments hr2 e2 log2 := by
  simp only [wmainCommand]
  cases wmainDispatch p arguments hr exitCode log with
  | returned e l => exact Or.inl rfl
  | proceed h e l => exact Or.inr ⟨h, e, l, rfl⟩

theorem creationSucceeds_succ (p : Platform) (i : Nat) (log : List Event) :
    creationSucceeds p (i + 1) log =
      creationSucceeds p i (log ++ [Event.getUserInput Msg.MSG_ENTER_USERNAME 32]
        ++ [Event.createUser (p.getUserInput log Msg.MSG_ENTER_USERNAME 32)]) := rfl

theorem createUserLoop_succeeds (p : Platform) (k : Nat) :
    ∀ (fuel : Nat) (log : List Event),
      (∀ i, i < k → creationSucceeds p i log = false) → creationSucceeds p k log = true →
      k < fuel →
      createUserLoop p fuel log = some (enteredName p k log, afterAttempts p (k + 1) log) := by
  induction k with
  | zero =>
    intro fuel log _ hsucc hfuel
    obtain ⟨f, rfl⟩ : ∃ f, fuel = f + 1 := ⟨fuel - 1, by omega⟩
    have h : p.createUser (log ++ [Event.getUserInput Msg.MSG_ENTER_USERNAME 32])
        (p.getUserInput log Msg.MSG_ENTER_USERNAME 32) = true := hsucc
    simp [createUserLoop, h, enteredName, afterAttempts]
  | succ k ih =>
    intro fuel log hfail hsucc hfuel
    obtain ⟨f, rfl⟩ : ∃ f, fuel = f + 1 := ⟨fuel - 1, by omega⟩
    have h : p.createUser (log ++ [Event.getUserInput Msg.MSG_ENTER_USERNAME 32])
        (p.getUserInput log Msg.MSG_ENTER_USERNAME 32) = false := hfail 0 (by omega)
    have hrec := ih f
      (log ++ [Event.getUserInput Msg.MSG_ENTER_USERNAME 32]
        ++ [Event.createUser (p.getUserInput log Msg.MSG_ENTER_USERNAME 32)])
      (fun i hi => by rw [← creationSucceeds_succ]; exact hfail (i + 1) (by omega))
      (by rw [← creationSucceeds_succ]; exact hsucc) (by omega)
    simp only [createUserLoop, h, Bool.not_false, if_true]
    rw [hrec]
    rfl

theorem createUserLoop_never (p : Platform) (fuel : Nat) :
    ∀ log : List Event, (∀ i, creationSucceeds p i log = false) →
      createUserLoop p fuel log = none := by
  induction fuel with
  | zero => intro log _; rfl
  | succ f ih =>
    intro log hfail
    have h : p.createUser (log ++ [Event.getUserInput Msg.MSG_ENTER_USERNAME 32])
        (p.getUserInput log Msg.MSG_ENTER_USERNAME 32) = false := hfail 0
    simp only [createUserLoop, h, Bool.not_false, if_true]
    exact ih _ (fun i => by rw [← creationSucceeds_succ]; exact hfail (i + 1))

theorem createUserLoop_some (p : Platform) (fuel : Nat) :
    ∀ (log : List Event) (userName : String) (log2 : List Event),
      createUserLoop p fuel log = some (userName, log2) →
      ∃ k, k < fuel ∧ (∀ i, i < k → creationSucceeds p i log = false) ∧
        creationSucceeds p k log = true ∧ userName = enteredName p k log ∧
        log2 = afterAttempts p (k + 1) log := by
  induction fuel with
  | zero => intro log userName log2 h; simp [createUserLoop] at h
  | succ f ih =>
    intro log userName log2 h
    simp only [createUserLoop] at h
    split at h
    · rename_i hc
      obtain ⟨k, hk, hfail, hsucc, hname, hlog⟩ := ih _ _ _ h
      refine ⟨k + 1, by omega, ?_, hsucc, hname, hlog⟩
      intro i hi
      cases i with
      | zero => simpa using hc
      | succ j => rw [creationSucceeds_succ]; exact hfail j (by omega)
    · rename_i hc
      simp only [Option.some.injEq, Prod.mk.injEq] at h
      refine ⟨0, by omega, fun i hi => by omega, ?_, h.1.symm, h.2.symm⟩
      simpa using hc

theorem promptCount_append (a b : List Event) :
    promptCount (a ++ b) = promptCount a + promptCount b := by
  simp [promptCount, List.countP_append]

theorem createCount_append (a b : List Event) :
    createCount (a ++ b) = createCount a + createCount b := by
  simp [createCount, List.countP_append]

theorem promptCount_afterAttempts (p : Platform) (i : Nat) :
    ∀ log : List Event, promptCount (afterAttempts p i log) = promptCount log + i := by
  induction i with
  | zero => intro log; rfl
  | succ i ih =>
    intro log
    simp only [afterAttempts]
    rw [ih, promptCount_append, promptCount_append]
    simp only [promptCount, List.countP_cons, List.countP_nil]
    simp
    omega

theorem createCount_afterAttempts (p : Platform) (i : Nat) :
    ∀ log : List Event, createCount (afterAttempts p i log) = createCount log + i := by
  induction i with
  | zero => intro log; rfl
  | succ i ih =>
    intro log
    simp only [afterAttempts]
    rw [ih, createCount_append, createCount_append]
    simp only [createCount, List.countP_cons, List.countP_nil]
    simp
    omega

theorem SetDefaultUser_counts (p : Platform) (log : List Event) (userName : String) :
    promptCount (SetDefaultUser p log userName).2 = promptCount log ∧
    createCount (SetDefaultUser p log userName).2 = createCount log := by
  simp only [SetDefaultUser]
  split_ifs <;> simp [promptCount, createCount, List.countP_append, List.countP_cons]

theorem InstallDistribution_eq (p : Platform) (fuel : Nat) (log : List Event) :
    InstallDistribution p fuel log =
      if FAILED (registerStatus p log) = true then
        some (registerStatus p log, registeredLog log)
      else if FAILED (removalStatus p log) = true then
        some (removalStatus p log,
          registeredLog log ++ [Event.launchInteractive "/bin/rm /etc/resolv.conf" true])
      else
        (createUserLoop p fuel (promptingLog log)).map
          (fun r => SetDefaultUser p r.2 r.1) := by
  simp only [InstallDistribution, registerStatus, removalStatus, registeredLog, promptingLog]
  split_ifs
  · rfl
  · rfl
  · cases createUserLoop p fuel
      (log ++ [Event.printMessage Msg.MSG_STATUS_INSTALLING] ++ [Event.registerDistribution]
        ++ [Event.launchInteractive "/bin/rm /etc/resolv.conf" true]
        ++ [Event.printMessage Msg.MSG_CREATE_USER_PROMPT]) with
    | none => rfl
    | some r => simp

theorem promptCount_promptingLog (log : List Event) :
    promptCount (promptingLog log) = promptCount log ∧
    createCount (promptingLog log) = createCount log := by
  simp [promptingLog, registeredLog, promptCount, createCount, List.countP_append,
    List.countP_cons]

/-! ## `SetDefaultUser` -/

/-- C9: for every user name, `SetDefaultUser` returns `E_INVALIDARG` and makes no configure
call (the only call made is the identifier query) when the query yields `UID_INVALID`;
otherwise it makes exactly one configure call, with the resolved identifier, and returns
the status of that call unchanged, whether it is a success or a failure. -/
theorem SetDefaultUser_status (p : Platform) (log : List Event) (userName : String) :
    (p.queryUid log userName = p.UID_INVALID →
      SetDefaultUser p log userName = (E_INVALIDARG, log ++ [Event.queryUid userName])) ∧
    (p.queryUid log userName ≠ p.UID_INVALID →
      SetDefaultUser p log userName =
        (p.configureDistribution (log ++ [Event.queryUid userName]) (p.queryUid log userName)
            p.WSL_DISTRIBUTION_FLAGS_DEFAULT,
          log ++ [Event.queryUid userName,
            Event.configureDistribution (p.queryUid log userName)
              p.WSL_DISTRIBUTION_FLAGS_DEFAULT])) := by
  constructor
  · intro h
    simp [SetDefaultUser, h]
  · intro h
    simp [SetDefaultUser, h]

theorem SetDefaultUser_status_witness :
    SetDefaultUser unknownUserPlatform [] "alice" = (E_INVALIDARG, [Event.queryUid "alice"]) ∧
    SetDefaultUser okPlatform [] "alice" =
      (S_OK, [Event.queryUid "alice", Event.configureDistribution 1000 7]) :=
  ⟨(SetDefaultUser_status unknownUserPlatform [] "alice").1 (by decide),
    (SetDefaultUser_status okPlatform [] "alice").2 (by decide)⟩

/-! ## The capability check -/

/-- C6: for every argument list, when the feature is reported absent `wmain` returns 1
from the first `return`, having printed the missing-component message and nothing else
besides the title update and the capability query: no registration check, install, launch
or configure call.  It prompts for input exactly when the argument list is empty. -/
theorem wmain_feature_absent (p : Platform) (fuel : Nat) (argv : List String)
    (habsent : p.isOptionalComponentInstalled [Event.setConsoleTitle] = false) :
    ∃ r, wmain p fuel argv = some r ∧ r.code = 1 ∧ r.site = ReturnSite.missingComponent ∧
      r.log = [Event.setConsoleTitle, Event.isOptionalComponentInstalled,
          Event.printMessage Msg.MSG_MISSING_OPTIONAL_COMPONENT]
        ++ (if argv.drop 1 = [] then [Event.promptForInput] else []) ∧
      (Event.promptForInput ∈ r.log ↔ argv.drop 1 = []) := by
  refine ⟨_, by simp only [wmain, habsent]; rfl, ?_⟩
  generalize argv.drop 1 = arguments
  cases arguments with
  | nil => simp [toInt32_one]
  | cons a as => simp [toInt32_one]

theorem wmain_feature_absent_witness :
    ∃ r, wmain absentPlatform 0 ["launcher"] = some r ∧ r.code = 1 ∧
      r.site = ReturnSite.missingComponent ∧
      r.log = [Event.setConsoleTitle, Event.isOptionalComponentInstalled,
          Event.printMessage Msg.MSG_MISSING_OPTIONAL_COMPONENT]
        ++ (if ["launcher"].drop 1 = [] then [Event.promptForInput] else []) ∧
      (Event.promptForInput ∈ r.log ↔ ["launcher"].drop 1 = []) :=
  wmain_feature_absent absentPlatform 0 ["launcher"] (by decide)

/-! ## Command dispatch -/

/-- C1: when the first token is `run`, `/c` or `-c`, the feature is present and the status
before dispatch is a success, `wmain` returns after making, from dispatch on, exactly one
interactive-launch call: its command string is the remaining tokens each preceded by one
space (empty when there are none) and its use-current-working-directory flag is true.
No other launch call of the whole run carries that command string. -/
theorem wmain_run_launches_joined_command (p : Platform) (fuel : Nat) (prog first : String)
    (rest : List String) (hr0 : HRESULT) (log1 : List Event)
    (hfirst : first = "run" ∨ first = "/c" ∨ first = "-c")
    (hfeat : p.isOptionalComponentInstalled [Event.setConsoleTitle] = true)
    (hinst : wmainInstall p fuel startLog = some (hr0, log1))
    (hok : SUCCEEDED hr0 = true) :
    ∃ r, wmain p fuel (prog :: first :: rest) = some r ∧
      r = wmainFinal (first :: rest) (p.launchInteractive log1 (joinLeadingSpace rest) true).1
        ((p.launchInteractive log1 (joinLeadingSpace rest) true).2.getD 1)
        (log1 ++ [Event.launchInteractive (joinLeadingSpace rest) true]) ∧
      (∃ tail, r.log = log1 ++ tail ∧ launchCalls tail = [(joinLeadingSpace rest, true)]) ∧
      (launchCalls r.log).filter (fun c => decide (c.1 = joinLeadingSpace rest))
        = [(joinLeadingSpace rest, true)] := by
  have hw := wmain_of_install p fuel (prog :: first :: rest) hr0 log1 hfeat hinst
  simp only [List.drop_succ_cons, List.drop_zero] at hw
  rw [wmainCommand_run p first rest hr0 1 log1 hfirst hok] at hw
  refine ⟨_, hw, rfl, ?_⟩
  obtain ⟨ext, hext, hl⟩ := wmainFinal_log (first :: rest)
    (p.launchInteractive log1 (joinLeadingSpace rest) true).1
    ((p.launchInteractive log1 (joinLeadingSpace rest) true).2.getD 1)
    (log1 ++ [Event.launchInteractive (joinLeadingSpace rest) true])
  obtain ⟨e1, he1, hl1⟩ := wmainInstall_log p fuel startLog hr0 log1 hinst
  have hcalls : launchCalls (Event.launchInteractive (joinLeadingSpace rest) true :: ext)
      = [(joinLeadingSpace rest, true)] := by
    have : launchCalls (Event.launchInteractive (joinLeadingSpace rest) true :: ext)
        = (joinLeadingSpace rest, true) :: launchCalls ext := by
      simp [launchCalls]
    rw [this, hl]
  constructor
  · exact ⟨Event.launchInteractive (joinLeadingSpace rest) true :: ext,
      by rw [hext]; simp, hcalls⟩
  · rw [hext, he1]
    have hstart : launchCalls startLog = [] := rfl
    have hsplit : startLog ++ e1 ++ [Event.launchInteractive (joinLeadingSpace rest) true] ++ ext
        = startLog ++ (e1 ++ (Event.launchInteractive (joinLeadingSpace rest) true :: ext)) := by
      simp
    rw [hsplit, launchCalls_append, launchCalls_append, hstart, hcalls, List.nil_append,
      List.filter_append]
    have hnone : (launchCalls e1).filter (fun c => decide (c.1 = joinLeadingSpace rest)) = [] := by
      rw [List.filter_eq_nil_iff]
      intro c hc
      rw [hl1 c hc]
      simpa using (joinLeadingSpace_ne_rm rest).symm
    rw [hnone]
    simp

theorem wmain_run_launches_joined_command_witness :
    ∃ r, wmain okPlatform 0 ["launcher", "run", "ls", "-l"] = some r ∧
      r = wmainFinal ["run", "ls", "-l"]
        (okPlatform.launchInteractive
          [Event.setConsoleTitle, Event.isOptionalComponentInstalled,
            Event.isDistributionRegistered]
          (joinLeadingSpace ["ls", "-l"]) true).1
        ((okPlatform.launchInteractive
          [Event.setConsoleTitle, Event.isOptionalComponentInstalled,
            Event.isDistributionRegistered]
          (joinLeadingSpace ["ls", "-l"]) true).2.getD 1)
        ([Event.setConsoleTitle, Event.isOptionalComponentInstalled,
            Event.isDistributionRegistered]
          ++ [Event.launchInteractive (joinLeadingSpace ["ls", "-l"]) true]) ∧
      (∃ tail, r.log = [Event.setConsoleTitle, Event.isOptionalComponentInstalled,
            Event.isDistributionRegistered] ++ tail ∧
          launchCalls tail = [(joinLeadingSpace ["ls", "-l"], true)]) ∧
      (launchCalls r.log).filter (fun c => decide (c.1 = joinLeadingSpace ["ls", "-l"]))
        = [(joinLeadingSpace ["ls", "-l"], true)] :=
  wmain_run_launches_joined_command okPlatform 0 "launcher" "run" ["ls", "-l"] S_OK
    [Event.setConsoleTitle, Event.isOptionalComponentInstalled, Event.isDistributionRegistered]
    (Or.inl rfl) (by decide) (by decide) (by decide)

/-- C3: when the first token is `config` and the list does not have exactly three tokens
or its second token is not `--default-user` (feature present, status before dispatch a
success), dispatch makes no call at all and leaves the status `E_INVALIDARG`; `wmain` then
goes through the final error handling, printing the generic error message for
`E_INVALIDARG` (not the usage text), and returns 1. -/
theorem wmain_config_invalid_argument (p : Platform) (fuel : Nat) (prog : String)
    (rest : List String) (hr0 : HRESULT) (log1 : List Event)
    (hfeat : p.isOptionalComponentInstalled [Event.setConsoleTitle] = true)
    (hinst : wmainInstall p fuel startLog = some (hr0, log1))
    (hok : SUCCEEDED hr0 = true)
    (hbad : ("config" :: rest).length ≠ 3 ∨ rest.head? ≠ some "--default-user") :
    wmainDispatch p ("config" :: rest) hr0 1 log1 = Dispatched.proceed E_INVALIDARG 1 log1 ∧
    wmain p fuel (prog :: "config" :: rest) =
      some { code := 1, log := log1 ++ [Event.printErrorMessage E_INVALIDARG],
             site := ReturnSite.final E_INVALIDARG 1 } := by
  have hs : SUCCEEDED E_INVALIDARG = false := by decide
  have hf : FAILED E_INVALIDARG = true := by decide
  have hne : E_INVALIDARG ≠ HRESULT_FROM_WIN32 ERROR_LINUX_SUBSYSTEM_NOT_PRESENT := by decide
  have hd : wmainDispatch p ("config" :: rest) hr0 1 log1
      = Dispatched.proceed E_INVALIDARG 1 log1 := by
    rcases rest with _ | ⟨a, _ | ⟨b, _ | ⟨c, rest⟩⟩⟩
    · simp [wmainDispatch, hok, hs]
    · simp [wmainDispatch, hok, hs]
    · have ha : a ≠ "--default-user" := by
        rcases hbad with h | h
        · simp at h
        · simpa using h
      simp [wmainDispatch, hok, hs, ha]
    · simp [wmainDispatch, hok, hs]
  refine ⟨hd, ?_⟩
  have hw := wmain_of_install p fuel (prog :: "config" :: rest) hr0 log1 hfeat hinst
  simp only [List.drop_succ_cons, List.drop_zero] at hw
  rw [hw]
  simp [wmainCommand, hd, wmainFinal, hs, hf, hne, toInt32_one]

theorem wmain_config_invalid_argument_witness :
    wmainDispatch okPlatform ["config", "--default-user"] S_OK 1
        [Event.setConsoleTitle, Event.isOptionalComponentInstalled,
          Event.isDistributionRegistered]
      = Dispatched.proceed E_INVALIDARG 1
        [Event.setConsoleTitle, Event.isOptionalComponentInstalled,
          Event.isDistributionRegistered] ∧
    wmain okPlatform 0 ["launcher", "config", "--default-user"] =
      some { code := 1,
             log := [Event.setConsoleTitle, Event.isOptionalComponentInstalled,
               Event.isDistributionRegistered] ++ [Event.printErrorMessage E_INVALIDARG],
             site := ReturnSite.final E_INVALIDARG 1 } :=
  wmain_config_invalid_argument okPlatform 0 "launcher" ["--default-user"] S_OK
    [Event.setConsoleTitle, Event.isOptionalComponentInstalled, Event.isDistributionRegistered]
    (by decide) (by decide) (by decide) (Or.inl (by decide))

/-- C4: when the first token is none of `run`, `/c`, `-c`, `config` (feature present, status
before dispatch a success), dispatch prints the usage text, makes no other call and
returns at once with whatever value the exit-code variable held on entry; `wmain`
therefore returns from the usage `return`, without final error handling, the value 1 that
the variable has held since its initialisation. -/
theorem wmain_unrecognized_prints_usage (p : Platform) (fuel : Nat) (prog first : String)
    (rest : List String) (hr0 : HRESULT) (log1 : List Event)
    (hfeat : p.isOptionalComponentInstalled [Event.setConsoleTitle] = true)
    (hinst : wmainInstall p fuel startLog = some (hr0, log1))
    (hok : SUCCEEDED hr0 = true)
    (hne : first ≠ "run" ∧ first ≠ "/c" ∧ first ≠ "-c" ∧ first ≠ "config") :
    (∀ exitCode : DWORD, wmainDispatch p (first :: rest) hr0 exitCode log1 =
      Dispatched.returned exitCode (log1 ++ [Event.printMessage Msg.MSG_USAGE])) ∧
    wmain p fuel (prog :: first :: rest) =
      some { code := 1, log := log1 ++ [Event.printMessage Msg.MSG_USAGE],
             site := ReturnSite.usage } := by
  obtain ⟨h1, h2, h3, h4⟩ := hne
  have hd : ∀ exitCode : DWORD, wmainDispatch p (first :: rest) hr0 exitCode log1 =
      Dispatched.returned exitCode (log1 ++ [Event.printMessage Msg.MSG_USAGE]) := by
    intro exitCode
    simp [wmainDispatch, hok, h1, h2, h3, h4]
  refine ⟨hd, ?_⟩
  have hw := wmain_of_install p fuel (prog :: first :: rest) hr0 log1 hfeat hinst
  simp only [List.drop_succ_cons, List.drop_zero] at hw
  rw [hw]
  simp [wmainCommand, hd, toInt32_one]

theorem wmain_unrecognized_prints_usage_witness :
    (∀ exitCode : DWORD, wmainDispatch okPlatform ["help", "me"] S_OK exitCode
        [Event.setConsoleTitle, Event.isOptionalComponentInstalled,
          Event.isDistributionRegistered] =
      Dispatched.returned exitCode
        ([Event.setConsoleTitle, Event.isOptionalComponentInstalled,
          Event.isDistributionRegistered] ++ [Event.printMessage Msg.MSG_USAGE])) ∧
    wmain okPlatform 0 ["launcher", "help", "me"] =
      some { code := 1,
             log := [Event.setConsoleTitle, Event.isOptionalComponentInstalled,
               Event.isDistributionRegistered] ++ [Event.printMessage Msg.MSG_USAGE],
             site := ReturnSite.usage } :=
  wmain_unrecognized_prints_usage okPlatform 0 "launcher" "help" ["me"] S_OK
    [Event.setConsoleTitle, Event.isOptionalComponentInstalled, Event.isDistributionRegistered]
    (by decide) (by decide) (by decide) (by decide)

/-- C2 fails as stated: on a platform where `alice` resolves to the valid identifier 1000
but the configure call fails, `config --default-user alice` ends with the failure status
and exit code 1. -/
theorem config_default_user_configure_failure :
    configureFailsPlatform.isOptionalComponentInstalled [Event.setConsoleTitle] = true ∧
    wmainInstall configureFailsPlatform 0 startLog =
      some (S_OK, [Event.setConsoleTitle, Event.isOptionalComponentInstalled,
        Event.isDistributionRegistered]) ∧
    configureFailsPlatform.queryUid
        [Event.setConsoleTitle, Event.isOptionalComponentInstalled,
          Event.isDistributionRegistered] "alice"
      ≠ configureFailsPlatform.UID_INVALID ∧
    SUCCEEDED (SetDefaultUser configureFailsPlatform
        [Event.setConsoleTitle, Event.isOptionalComponentInstalled,
          Event.isDistributionRegistered] "alice").1 = false ∧
    wmain configureFailsPlatform 0 ["launcher", "config", "--default-user", "alice"] =
      some { code := 1,
             log := [Event.setConsoleTitle, Event.isOptionalComponentInstalled,
               Event.isDistributionRegistered, Event.queryUid "alice",
               Event.configureDistribution 1000 7, Event.printErrorMessage (-2147467259)],
             site := ReturnSite.final (-2147467259) 1 } := by
  decide

/-- C2 (amended): for the argument list `config --default-user X`, when the feature is
present, the status before dispatch is a success, `X` resolves to an identifier other than
`UID_INVALID` and the configure call made with that identifier returns a success status,
`SetDefaultUser` succeeds and `wmain` returns 0 from the final `return`, having made only
the identifier query and the configure call. -/
theorem wmain_config_default_user (p : Platform) (fuel : Nat) (prog X : String)
    (hr0 : HRESULT) (log1 : List Event)
    (hfeat : p.isOptionalComponentInstalled [Event.setConsoleTitle] = true)
    (hinst : wmainInstall p fuel startLog = some (hr0, log1))
    (hok : SUCCEEDED hr0 = true)
    (hvalid : p.queryUid log1 X ≠ p.UID_INVALID)
    (hconf : SUCCEEDED (p.configureDistribution (log1 ++ [Event.queryUid X])
      (p.queryUid log1 X) p.WSL_DISTRIBUTION_FLAGS_DEFAULT) = true) :
    SUCCEEDED (SetDefaultUser p log1 X).1 = true ∧
    wmain p fuel [prog, "config", "--default-user", X] =
      some { code := 0,
             log := log1 ++ [Event.queryUid X,
               Event.configureDistribution (p.queryUid log1 X)
                 p.WSL_DISTRIBUTION_FLAGS_DEFAULT],
             site := ReturnSite.final (p.configureDistribution (log1 ++ [Event.queryUid X])
               (p.queryUid log1 X) p.WSL_DISTRIBUTION_FLAGS_DEFAULT) 0 } := by
  have hset : SetDefaultUser p log1 X =
      (p.configureDistribution (log1 ++ [Event.queryUid X]) (p.queryUid log1 X)
          p.WSL_DISTRIBUTION_FLAGS_DEFAULT,
        log1 ++ [Event.queryUid X,
          Event.configureDistribution (p.queryUid log1 X) p.WSL_DISTRIBUTION_FLAGS_DEFAULT]) := by
    simp [SetDefaultUser, hvalid]
  have hnf : FAILED (p.configureDistribution (log1 ++ [Event.queryUid X])
      (p.queryUid log1 X) p.WSL_DISTRIBUTION_FLAGS_DEFAULT) = false := by
    simp [failed_eq_not_succeeded, hconf]
  refine ⟨by rw [hset]; exact hconf, ?_⟩
  have hw := wmain_of_install p fuel [prog, "config", "--default-user", X] hr0 log1 hfeat hinst
  simp only [List.drop_succ_cons, List.drop_zero] at hw
  rw [hw]
  simp [wmainCommand, wmainDispatch, hok, hset, hconf, wmainFinal, hnf, toInt32_zero]

theorem wmain_config_default_user_witness :
    SUCCEEDED (SetDefaultUser okPlatform
      [Event.setConsoleTitle, Event.isOptionalComponentInstalled,
        Event.isDistributionRegistered] "alice").1 = true ∧
    wmain okPlatform 0 ["launcher", "config", "--default-user", "alice"] =
      some { code := 0,
             log := [Event.setConsoleTitle, Event.isOptionalComponentInstalled,
                 Event.isDistributionRegistered]
               ++ [Event.queryUid "alice",
               Event.configureDistribution
                 (okPlatform.queryUid [Event.setConsoleTitle,
                   Event.isOptionalComponentInstalled, Event.isDistributionRegistered] "alice")
                 okPlatform.WSL_DISTRIBUTION_FLAGS_DEFAULT],
             site := ReturnSite.final
               (okPlatform.configureDistribution
                 ([Event.setConsoleTitle, Event.isOptionalComponentInstalled,
                   Event.isDistributionRegistered] ++ [Event.queryUid "alice"])
                 (okPlatform.queryUid [Event.setConsoleTitle,
                   Event.isOptionalComponentInstalled, Event.isDistributionRegistered] "alice")
                 okPlatform.WSL_DISTRIBUTION_FLAGS_DEFAULT) 0 } :=
  wmain_config_default_user okPlatform 0 "launcher" "alice" S_OK
    [Event.setConsoleTitle, Event.isOptionalComponentInstalled, Event.isDistributionRegistered]
    (by decide) (by decide) (by decide) (by decide) (by decide)

/-! ## Conditional install -/

/-- C7 fails as stated: with no arguments, the distribution not registered and registration
failing with the already-exists status, `wmain` prints the already-exists message and then
skips dispatch: no session is launched, the generic error message is printed, input is
awaited and 1 is returned. -/
theorem already_exists_skips_dispatch :
    alreadyExistsPlatform.isOptionalComponentInstalled [Event.setConsoleTitle] = true ∧
    alreadyExistsPlatform.isDistributionRegistered startLog = false ∧
    InstallDistribution alreadyExistsPlatform 0 (startLog ++ [Event.isDistributionRegistered]) =
      some (HRESULT_FROM_WIN32 ERROR_ALREADY_EXISTS,
        [Event.setConsoleTitle, Event.isOptionalComponentInstalled,
          Event.isDistributionRegistered, Event.printMessage Msg.MSG_STATUS_INSTALLING,
          Event.registerDistribution]) ∧
    wmain alreadyExistsPlatform 0 ["launcher"] =
      some { code := 1,
             log := [Event.setConsoleTitle, Event.isOptionalComponentInstalled,
               Event.isDistributionRegistered, Event.printMessage Msg.MSG_STATUS_INSTALLING,
               Event.registerDistribution,
               Event.printMessage Msg.MSG_INSTALL_ALREADY_EXISTS,
               Event.printErrorMessage (-2147024713), Event.promptForInput],
             site := ReturnSite.final (-2147024713) 1 } ∧
    (wmain alreadyExistsPlatform 0 ["launcher"]).map (fun r => launchCalls r.log) = some [] := by
  decide

/-- C7 (amended): when the feature is present, the distribution is not registered and
`InstallDistribution` returns the already-exists status, `wmain` prints the already-exists
message and keeps the failure status: dispatch is skipped, the final error handling prints
the generic error message for that status and prompts for input exactly when there are no
arguments, and `wmain` returns 1. -/
theorem wmain_install_already_exists (p : Platform) (fuel : Nat) (prog : String)
    (args : List String) (log2 : List Event)
    (hfeat : p.isOptionalComponentInstalled [Event.setConsoleTitle] = true)
    (hnotreg : p.isDistributionRegistered startLog = false)
    (hinstall : InstallDistribution p fuel (startLog ++ [Event.isDistributionRegistered]) =
      some (HRESULT_FROM_WIN32 ERROR_ALREADY_EXISTS, log2)) :
    wmain p fuel (prog :: args) =
      some { code := 1,
             log := log2 ++ [Event.printMessage Msg.MSG_INSTALL_ALREADY_EXISTS,
                 Event.printErrorMessage (HRESULT_FROM_WIN32 ERROR_ALREADY_EXISTS)]
               ++ (if args = [] then [Event.promptForInput] else []),
             site := ReturnSite.final (HRESULT_FROM_WIN32 ERROR_ALREADY_EXISTS) 1 } := by
  have hf : FAILED (HRESULT_FROM_WIN32 ERROR_ALREADY_EXISTS) = true := by decide
  have hs : SUCCEEDED (HRESULT_FROM_WIN32 ERROR_ALREADY_EXISTS) = false := by decide
  have hne : HRESULT_FROM_WIN32 ERROR_ALREADY_EXISTS
      ≠ HRESULT_FROM_WIN32 ERROR_LINUX_SUBSYSTEM_NOT_PRESENT := by decide
  have hinst : wmainInstall p fuel startLog =
      some (HRESULT_FROM_WIN32 ERROR_ALREADY_EXISTS,
        log2 ++ [Event.printMessage Msg.MSG_INSTALL_ALREADY_EXISTS]) := by
    simp [wmainInstall, hnotreg, hinstall, hf]
  have hw := wmain_of_install p fuel (prog :: args) _ _ hfeat hinst
  simp only [List.drop_succ_cons, List.drop_zero] at hw
  rw [hw, wmainCommand_skipped p args _ 1 _ hf]
  cases args with
  | nil => simp [wmainFinal, hf, hs, hne, toInt32_one]
  | cons a as => simp [wmainFinal, hf, hs, hne, toInt32_one]

theorem wmain_install_already_exists_witness :
    wmain alreadyExistsPlatform 0 ("launcher" :: ["run", "ls"]) =
      some { code := 1,
             log := [Event.setConsoleTitle, Event.isOptionalComponentInstalled,
                 Event.isDistributionRegistered, Event.printMessage Msg.MSG_STATUS_INSTALLING,
                 Event.registerDistribution]
               ++ [Event.printMessage Msg.MSG_INSTALL_ALREADY_EXISTS,
                 Event.printErrorMessage (HRESULT_FROM_WIN32 ERROR_ALREADY_EXISTS)]
               ++ (if ["run", "ls"] = [] then [Event.promptForInput] else []),
             site := ReturnSite.final (HRESULT_FROM_WIN32 ERROR_ALREADY_EXISTS) 1 } :=
  wmain_install_already_exists alreadyExistsPlatform 0 "launcher" ["run", "ls"]
    [Event.setConsoleTitle, Event.isOptionalComponentInstalled,
      Event.isDistributionRegistered, Event.printMessage Msg.MSG_STATUS_INSTALLING,
      Event.registerDistribution]
    (by decide) (by decide) (by decide)

/-- C8: for every argument list, when the feature is present and the distribution is
reported registered, the install step makes no call beyond the registration query and
leaves the status `S_OK` (whatever the fuel), `wmain` returns the result of command
dispatch started from there, and no call of the whole run is one that
`InstallDistribution` makes: no installing message, no register call, no `/etc/resolv.conf`
removal, no user-creation banner, no user-name prompt, no account creation. -/
theorem wmain_registered_skips_install (p : Platform) (fuel : Nat) (argv : List String)
    (hfeat : p.isOptionalComponentInstalled [Event.setConsoleTitle] = true)
    (hreg : p.isDistributionRegistered startLog = true) :
    wmainInstall p fuel startLog = some (S_OK, startLog ++ [Event.isDistributionRegistered]) ∧
    SUCCEEDED S_OK = true ∧
    ∃ r, wmain p fuel argv = some r ∧
      r = wmainCommand p (argv.drop 1) S_OK 1 (startLog ++ [Event.isDistributionRegistered]) ∧
      ∀ e ∈ r.log, isInstallCall e = false := by
  have hinst : wmainInstall p fuel startLog
      = some (S_OK, startLog ++ [Event.isDistributionRegistered]) := by
    simp [wmainInstall, hreg]
  refine ⟨hinst, by decide, _, wmain_of_install p fuel argv _ _ hfeat hinst, rfl, ?_⟩
  intro e he
  rcases wmainCommand_mem p _ _ _ _ e he with h | h
  · simp only [startLog, List.cons_append, List.nil_append, List.mem_cons,
      List.mem_singleton, List.not_mem_nil, or_false] at h
    rcases h with h | h | h <;> subst h <;> rfl
  · exact h

theorem wmain_registered_skips_install_witness :
    wmainInstall okPlatform 0 startLog
      = some (S_OK, startLog ++ [Event.isDistributionRegistered]) ∧
    SUCCEEDED S_OK = true ∧
    ∃ r, wmain okPlatform 0 ["launcher", "run", "ls"] = some r ∧
      r = wmainCommand okPlatform (["launcher", "run", "ls"].drop 1) S_OK 1
        (startLog ++ [Event.isDistributionRegistered]) ∧
      ∀ e ∈ r.log, isInstallCall e = false :=
  wmain_registered_skips_install okPlatform 0 ["launcher", "run", "ls"] (by decide) (by decide)

/-! ## The final exit code -/

/-- C5: in every run in which the feature is present and the install step returns, `wmain`
returns; if it returns from the final `return` with a failure status the returned value is 1,
whatever the exit-code variable holds.  When the status before dispatch is a success and
the arguments are empty or start with a run synonym, a session is launched and the final
`return` is reached with the status of that launch: if the launch failed the returned value
is 1 even if the session stored an exit code, and if it succeeded and the session stored
exit code `v`, the process exit code is `v` (and the returned `int` is `v` itself when `v`
fits a signed 32-bit value). -/
theorem wmain_final_exit_code (p : Platform) (fuel : Nat) (argv : List String)
    (hr0 : HRESULT) (log1 : List Event)
    (hfeat : p.isOptionalComponentInstalled [Event.setConsoleTitle] = true)
    (hinst : wmainInstall p fuel startLog = some (hr0, log1)) :
    ∃ r, wmain p fuel argv = some r ∧
      (∀ hr exitCode, r.site = ReturnSite.final hr exitCode → FAILED hr = true → r.code = 1) ∧
      (SUCCEEDED hr0 = true → ∀ command useCwd,
        ((argv.drop 1 = [] ∧ command = "" ∧ useCwd = false) ∨
          (∃ first rest, argv.drop 1 = first :: rest ∧
            (first = "run" ∨ first = "/c" ∨ first = "-c") ∧
            command = joinLeadingSpace rest ∧ useCwd = true)) →
        r = wmainFinal (argv.drop 1) (p.launchInteractive log1 command useCwd).1
          ((p.launchInteractive log1 command useCwd).2.getD 1)
          (log1 ++ [Event.launchInteractive command useCwd]) ∧
        (FAILED (p.launchInteractive log1 command useCwd).1 = true → r.code = 1) ∧
        (SUCCEEDED (p.launchInteractive log1 command useCwd).1 = true →
          ∀ v, (p.launchInteractive log1 command useCwd).2 = some v → v < 2 ^ 32 →
            processExitCode r.code = v ∧ (v < 2 ^ 31 → r.code = v))) := by
  refine ⟨_, wmain_of_install p fuel argv hr0 log1 hfeat hinst, ?_, ?_⟩
  · intro hr exitCode hsite hfail
    rcases wmainCommand_cases p (argv.drop 1) hr0 1 log1 with h | ⟨hr2, e2, log2, h⟩
    · rw [h] at hsite
      cases hsite
    · rw [h] at hsite ⊢
      rw [wmainFinal_site] at hsite
      cases hsite
      have hs : SUCCEEDED hr = false := by simp [succeeded_eq_not_failed, hfail]
      simp [wmainFinal_code, hs, toInt32_one]
  · intro hok command useCwd hargs
    have hform : wmainCommand p (argv.drop 1) hr0 1 log1 =
        wmainFinal (argv.drop 1) (p.launchInteractive log1 command useCwd).1
          ((p.launchInteractive log1 command useCwd).2.getD 1)
          (log1 ++ [Event.launchInteractive command useCwd]) := by
      rcases hargs with ⟨h, rfl, rfl⟩ | ⟨first, rest, h, hfirst, rfl, rfl⟩
      · rw [h]
        exact wmainCommand_empty p hr0 1 log1 hok
      · rw [h]
        exact wmainCommand_run p first rest hr0 1 log1 hfirst hok
    refine ⟨hform, ?_, ?_⟩
    · intro hfail
      have hs : SUCCEEDED (p.launchInteractive log1 command useCwd).1 = false := by
        simp [succeeded_eq_not_failed, hfail]
      rw [hform]
      simp [wmainFinal_code, hs, toInt32_one]
    · intro hs v hv hlt
      rw [hform]
      simp only [wmainFinal_code, hs, if_true, hv, Option.getD_some]
      exact ⟨processExitCode_toInt32 v hlt, fun h => toInt32_small v h⟩

theorem wmain_final_exit_code_witness :
    (∃ r, wmain okPlatform 0 ["launcher"] = some r ∧ processExitCode r.code = 7 ∧ r.code = 7) ∧
    (∃ r, wmain launchFailsPlatform 0 ["launcher", "-c", "ls"] = some r ∧
      r.site = ReturnSite.final (-2147467259) 7 ∧ r.code = 1) := by
  constructor
  · obtain ⟨r, hr, -, h⟩ := wmain_final_exit_code okPlatform 0 ["launcher"] S_OK
      (startLog ++ [Event.isDistributionRegistered]) (by decide) (by decide)
    have h2 := (h (by decide) "" false (Or.inl ⟨rfl, rfl, rfl⟩)).2.2 (by decide) 7 rfl
      (by decide)
    exact ⟨r, hr, h2.1, h2.2 (by decide)⟩
  · obtain ⟨r, hr, h, h2⟩ := wmain_final_exit_code launchFailsPlatform 0
      ["launcher", "-c", "ls"] S_OK
      (startLog ++ [Event.isDistributionRegistered]) (by decide) (by decide)
    have hsite : r.site = ReturnSite.final (-2147467259) 7 := by
      rw [(h2 (by decide) " ls" true
        (Or.inr ⟨"-c", ["ls"], rfl, Or.inr (Or.inr rfl), by decide, rfl⟩)).1]
      rfl
    exact ⟨r, hr, hsite, h _ _ hsite (by decide)⟩

/-! ## `InstallDistribution` -/

/-- C10: `InstallDistribution` stops at its first abort point.  If registration fails it
returns that status having made no further call; if the removal of `/etc/resolv.conf` fails
it returns that status having made no prompt or account creation.  Otherwise, when the
first `k` account creations fail and the next one succeeds, every run with more than `k`
units of fuel returns what `SetDefaultUser` returns for the name entered at prompt `k + 1`,
after exactly `k + 1` prompts and `k + 1` creation attempts, for every `k` (there is no
retry cap); when no creation ever succeeds no amount of fuel makes it return.  Whenever it
returns a success status, registration, removal, an account creation and `SetDefaultUser`
all succeeded. -/
theorem InstallDistribution_linear (p : Platform) (log : List Event) :
    (FAILED (registerStatus p log) = true →
      ∀ fuel, InstallDistribution p fuel log =
        some (registerStatus p log, registeredLog log)) ∧
    (FAILED (registerStatus p log) = false → FAILED (removalStatus p log) = true →
      ∀ fuel, InstallDistribution p fuel log =
        some (removalStatus p log,
          registeredLog log ++ [Event.launchInteractive "/bin/rm /etc/resolv.conf" true])) ∧
    (FAILED (registerStatus p log) = false → FAILED (removalStatus p log) = false →
      ∀ k, (∀ i, i < k → creationSucceeds p i (promptingLog log) = false) →
        creationSucceeds p k (promptingLog log) = true →
        ∀ fuel, k < fuel →
          InstallDistribution p fuel log =
            some (SetDefaultUser p (afterAttempts p (k + 1) (promptingLog log))
              (enteredName p k (promptingLog log))) ∧
          promptCount (SetDefaultUser p (afterAttempts p (k + 1) (promptingLog log))
              (enteredName p k (promptingLog log))).2 = promptCount log + (k + 1) ∧
          createCount (SetDefaultUser p (afterAttempts p (k + 1) (promptingLog log))
              (enteredName p k (promptingLog log))).2 = createCount log + (k + 1)) ∧
    (FAILED (registerStatus p log) = false → FAILED (removalStatus p log) = false →
      (∀ i, creationSucceeds p i (promptingLog log) = false) →
      ∀ fuel, InstallDistribution p fuel log = none) ∧
    (∀ fuel hr log2, InstallDistribution p fuel log = some (hr, log2) → SUCCEEDED hr = true →
      SUCCEEDED (registerStatus p log) = true ∧ SUCCEEDED (removalStatus p log) = true ∧
      ∃ k, k < fuel ∧ creationSucceeds p k (promptingLog log) = true ∧
        (hr, log2) = SetDefaultUser p (afterAttempts p (k + 1) (promptingLog log))
          (enteredName p k (promptingLog log))) := by
  refine ⟨?_, ?_, ?_, ?_, ?_⟩
  · intro h1 fuel
    simp [InstallDistribution_eq, h1]
  · intro h1 h2 fuel
    simp [InstallDistribution_eq, h1, h2]
  · intro h1 h2 k hfail hsucc fuel hfuel
    refine ⟨?_, ?_, ?_⟩
    · simp [InstallDistribution_eq, h1, h2,
        createUserLoop_succeeds p k fuel (promptingLog log) hfail hsucc hfuel]
    · rw [(SetDefaultUser_counts p _ _).1, promptCount_afterAttempts,
        (promptCount_promptingLog log).1]
    · rw [(SetDefaultUser_counts p _ _).2, createCount_afterAttempts,
        (promptCount_promptingLog log).2]
  · intro h1 h2 hnever fuel
    simp [InstallDistribution_eq, h1, h2, createUserLoop_never p fuel (promptingLog log) hnever]
  · intro fuel hr log2 h hs
    have hnf : FAILED hr = false := by simp [failed_eq_not_succeeded, hs]
    rw [InstallDistribution_eq] at h
    split_ifs at h with h1 h2
    · simp only [Option.some.injEq, Prod.mk.injEq] at h
      rw [h.1, hnf] at h1
      cases h1
    · simp only [Option.some.injEq, Prod.mk.injEq] at h
      rw [h.1, hnf] at h2
      cases h2
    · refine ⟨by simpa [succeeded_eq_not_failed] using h1,
        by simpa [succeeded_eq_not_failed] using h2, ?_⟩
      cases hloop : createUserLoop p fuel (promptingLog log) with
      | none => simp [hloop] at h
      | some r =>
        obtain ⟨userName, log3⟩ := r
        obtain ⟨k, hk, -, hsucc, hname, hlog⟩ := createUserLoop_some p fuel _ _ _ hloop
        refine ⟨k, hk, hsucc, ?_⟩
        simp only [hloop, Option.map_some', Option.some.injEq] at h
        rw [← h, hname, hlog]

theorem InstallDistribution_linear_witness :
    InstallDistribution alreadyExistsPlatform 0 [] =
      some (registerStatus alreadyExistsPlatform [], registeredLog []) ∧
    InstallDistribution removalFailsPlatform 0 [] =
      some (removalStatus removalFailsPlatform [],
        registeredLog [] ++ [Event.launchInteractive "/bin/rm /etc/resolv.conf" true]) ∧
    (InstallDistribution thirdTryPlatform 3 (startLog ++ [Event.isDistributionRegistered]) =
        some (S_OK,
          [Event.setConsoleTitle, Event.isOptionalComponentInstalled,
            Event.isDistributionRegistered, Event.printMessage Msg.MSG_STATUS_INSTALLING,
            Event.registerDistribution,
            Event.launchInteractive "/bin/rm /etc/resolv.conf" true,
            Event.printMessage Msg.MSG_CREATE_USER_PROMPT,
            Event.getUserInput Msg.MSG_ENTER_USERNAME 32, Event.createUser "root",
            Event.getUserInput Msg.MSG_ENTER_USERNAME 32, Event.createUser "root",
            Event.getUserInput Msg.MSG_ENTER_USERNAME 32, Event.createUser "alice",
            Event.queryUid "alice", Event.configureDistribution 1000 7])) ∧
    (∀ fuel, InstallDistribution neverCreatesPlatform fuel [] = none) ∧
    SUCCEEDED (registerStatus okPlatform []) = true := by
  refine ⟨?_, ?_, ?_, ?_, ?_⟩
  · exact (InstallDistribution_linear alreadyExistsPlatform []).1 (by decide) 0
  · exact (InstallDistribution_linear removalFailsPlatform []).2.1 (by decide) (by decide) 0
  · have h := ((InstallDistribution_linear thirdTryPlatform
      (startLog ++ [Event.isDistributionRegistered])).2.2.1 (by decide) (by decide) 2
      (by decide) (by decide) 3 (by decide)).1
    rw [h]
    decide
  · exact (InstallDistribution_linear neverCreatesPlatform []).2.2.2.1 (by decide) (by decide)
      (fun i => rfl)
  · exact ((InstallDistribution_linear okPlatform []).2.2.2.2 1 S_OK
      ((SetDefaultUser okPlatform (afterAttempts okPlatform 1 (promptingLog []))
        (enteredName okPlatform 0 (promptingLog []))).2) (by decide) (by decide)).1

end DistroLauncher
